import Mathlib

/-!
Shallow embedding of the core logic of `src/currencyapp.py` (an educational
currency-verification demo): the static currency catalog `CURRENCY_DB`, the
image-statistics extractor `image_stats_summary`, the randomized
`simulated_analysis` engine, and the `generate_ai_explanation` composer.

Python floats are modelled with `ℚ` (all the constants in the source are
exact decimals, and every claim proved below concerns order/clamping/structure,
which is insensitive to the float/rational distinction).  Calls into Python's
`random` module are modelled by an explicit `Rand` record holding the values
the random source returns, with the guarantees Python documents for each call
(`random.uniform(a,b) ∈ [a,b]`, `random.random() ∈ [0,1)`, `random.randint(1,2)
∈ {1,2}`, `random.sample(pool, k)` picks `k` distinct elements of `pool`)
stated as hypotheses where a theorem needs them.
-/

namespace CurrencyApp

/-- The three scalar image summaries returned by `image_stats_summary`
(dict keys `brightness`, `contrast`, `edge_mean` in the source; the spec
calls the last one `edgeDensity`). -/
structure ImageStats where
  brightness : ℚ
  contrast : ℚ
  edge_mean : ℚ
deriving Repr, DecidableEq

/-- Outcome of the Pillow processing pipeline
(`img.convert("L").resize((300,300))`, `ImageStat.Stat`, `FIND_EDGES`)
applied to an image: either the three library summary values
(`stat.mean[0]`, `stat.stddev[0]`, `lap_stat.mean[0]`) or a raised exception
(corrupt data / unsupported format).  The pipeline is external library code
(Pillow), deterministic in the image's pixel data, which we model by making
its outcome a field of the decoded-image value. -/
inductive PILOutcome where
  | ok (mean stddev lapMean : ℚ)
  | error
deriving Repr, DecidableEq

/-- A `PIL.Image.Image` value as seen by this program: the (pixel-data
determined) outcome of the processing pipeline, plus incidental metadata that
the pipeline never reads. -/
structure PILImage where
  outcome : PILOutcome
  format : String
deriving Repr, DecidableEq

/-- The static `CURRENCY_DB` table from the source: currency code, display
name, and denomination ↦ ordered expected-feature list. -/
def CURRENCY_DB : List (String × String × List (String × List String)) :=
  [("INR", "Indian Rupee (INR)",
    [("10", ["Watermark", "Security thread", "Intaglio print", "Latent image"]),
     ("50", ["Watermark", "Security thread", "Optically variable ink", "Microprint"]),
     ("2000", ["Watermark", "Security thread", "See-through register", "Hologram"])]),
   ("USD", "US Dollar (USD)",
    [("1", ["Portrait watermark", "Raised printing", "Microprinting"]),
     ("20", ["Security thread", "Color-shifting ink", "Portrait watermark"]),
     ("100", ["3D Security ribbon", "Color-shifting bell", "Large portrait watermark"])]),
   ("EUR", "Euro (EUR)",
    [("5", ["Hologram", "Watermark", "Raised print"]),
     ("50", ["Security thread", "Hologram", "See-through number"]),
     ("200", ["Watermark", "Security thread", "EUR hologram"])])]

/-- The lookup `CURRENCY_DB.get(currency_code, {}).get("denominations", {}).get(denom, [])`
from line 78 of the source: each missing level defaults to empty. -/
def db_features (currency_code denom : String) : List String :=
  match CURRENCY_DB.find? (fun e => e.1 == currency_code) with
  | none => []
  | some e =>
    match e.2.2.find? (fun p => p.1 == denom) with
    | none => []
    | some p => p.2

/-- All (currency code, denomination) pairs that resolve to a catalog entry. -/
def catalogPairs : List (String × String) :=
  CURRENCY_DB.flatMap (fun e => e.2.2.map (fun p => (e.1, p.1)))

/-- Values returned by the `random` module during one `simulated_analysis`
call, in consumption order:
`uniformNoise` is `random.uniform(-0.12, 0.12)` (line 73);
`verdictDraw` is the `random.random()` of line 75;
`featureDraw i` is the `random.random()` drawn for the `i`-th expected feature
(lines 84/86); `reasonCount` is `random.randint(1, 2)` and `reasonPick` the
positions (in the 5-item pool) of the elements `random.sample` selects
(lines 95–101). -/
structure Rand where
  uniformNoise : ℚ
  verdictDraw : ℚ
  featureDraw : ℕ → ℚ
  reasonCount : ℕ
  reasonPick : List ℕ

/-- The fixed 5-item "extra suspicious signs" pool passed to `random.sample`
on lines 95–100. -/
def suspicious_pool : List String :=
  ["Uneven edge alignment", "Blurred microprint", "Odd color tint",
   "Inconsistent portrait size", "Missing watermark shadow"]

/-- The `for f in expected` loop of lines 81–90: the `i`-th feature is
appended to `observed` when its draw is below `presentProb`
(0.8 when the simulated verdict is real, 0.25 otherwise), else to `missing`. -/
def detectFeatures (presentProb : ℚ) (draw : ℕ → ℚ) :
    List String → ℕ → List String × List String
  | [], _ => ([], [])
  | f :: fs, i =>
    let rest := detectFeatures presentProb draw fs (i + 1)
    if draw i < presentProb then (f :: rest.1, rest.2) else (rest.1, f :: rest.2)

/-- The result dict returned by `simulated_analysis` (lines 103–111). -/
structure AnalysisResult where
  simulated_real : Bool
  probability_real : ℚ
  expected_features : List String
  observed_features : List String
  missing_features : List String
  suspicious_reasons : List String
  stats : ImageStats

/-- `image_stats_summary` (lines 46–59): package the three pipeline summary
values as a stats record; any exception degrades to all-zero stats. -/
def image_stats_summary (img : PILImage) : ImageStats :=
  match img.outcome with
  | .ok mean stddev lapMean =>
    { brightness := mean, contrast := stddev, edge_mean := lapMean }
  | .error => { brightness := 0, contrast := 0, edge_mean := 0 }

/-- `simulated_analysis` (lines 62–111), with the random source explicit. -/
def simulated_analysis (img : PILImage) (currency_code denom : String)
    (r : Rand) : AnalysisResult :=
  let stats := image_stats_summary img
  let score := stats.brightness / 128 + stats.edge_mean / 50
  let base_prob_real : ℚ := 0.55
  let prob_real :=
    min (max (base_prob_real + (score - 1) * 0.15 + r.uniformNoise) 0.02) 0.98
  let is_real_sim := decide (r.verdictDraw < prob_real)
  let expected := db_features currency_code denom
  let om := detectFeatures (if is_real_sim then 0.8 else 0.25) r.featureDraw expected 0
  let suspicious_reasons :=
    if is_real_sim then []
    else r.reasonPick.map (fun i => suspicious_pool.getD i "")
  { simulated_real := is_real_sim
    probability_real := prob_real
    expected_features := expected
    observed_features := om.1
    missing_features := om.2
    suspicious_reasons := suspicious_reasons
    stats := stats }

/-- Rounding used by Python's fixed-point format `f"{x:.0f}"`: nearest
integer, ties to even. -/
def roundHalfEven (q : ℚ) : ℤ :=
  if Int.fract q < 1 / 2 then ⌊q⌋
  else if 1 / 2 < Int.fract q then ⌊q⌋ + 1
  else if ⌊q⌋ % 2 = 0 then ⌊q⌋ else ⌊q⌋ + 1

/-- The format specifier `:.0f` applied to a (nonnegative, in this program)
value. -/
def fmt0f (q : ℚ) : String := toString (roundHalfEven q)

/-- The real-branch `tone` list (lines 121–124). -/
def realTone : List String :=
  ["The scanned note shows multiple expected security features. ",
   "Overall the image matches reference patterns used for genuine notes. "]

/-- The fake-branch `tone` list (lines 135–138). -/
def fakeTone : List String :=
  ["The scanned note shows several inconsistencies with the expected reference. ",
   "These discrepancies suggest the note could be a forgery or is damaged/poorly scanned. "]

/-- The real-branch `details` list (lines 125–131): each segment is appended
only when the corresponding list is non-empty (Python truthiness). -/
def realDetails (sim : AnalysisResult) : List String :=
  (if sim.observed_features.isEmpty then [] else
    ["Observed features: " ++ String.intercalate ", " sim.observed_features ++ "."]) ++
  (if sim.missing_features.isEmpty then [] else
    ["Minor features not clearly visible: " ++
      String.intercalate ", " sim.missing_features ++ "."]) ++
  (if sim.suspicious_reasons.isEmpty then [] else
    ["Additional notes: " ++ String.intercalate "; " sim.suspicious_reasons ++ "."])

/-- The fake-branch `details` list (lines 139–143). -/
def fakeDetails (sim : AnalysisResult) : List String :=
  (if sim.missing_features.isEmpty then [] else
    ["Missing or unclear features: " ++
      String.intercalate ", " sim.missing_features ++ "."]) ++
  (if sim.suspicious_reasons.isEmpty then [] else
    ["Suspicious signs: " ++ String.intercalate "; " sim.suspicious_reasons ++ "."])

/-- The fixed `closing` disclaimer string (lines 148–151; two adjacent Python
string literals concatenate). -/
def closing : String :=
  " This is an educational simulation — for a definitive determination consult bank note experts or use certified bank/forensic equipment."

/-- `generate_ai_explanation` (lines 114–152). -/
def generate_ai_explanation (sim : AnalysisResult) (currency_str denom : String) :
    String :=
  let header := "Interpretation for " ++ currency_str ++ " — " ++ denom ++ " (simulated):"
  let p :=
    if sim.simulated_real then
      String.intercalate " " (realTone ++ realDetails sim) ++
        " (Simulated confidence: " ++ fmt0f (sim.probability_real * 100) ++ "%)"
    else
      String.intercalate " " (fakeTone ++ fakeDetails sim) ++
        " (Simulated confidence that note is fake: " ++
        fmt0f ((1 - sim.probability_real) * 100) ++ "%)"
  header ++ "\n\n" ++ p ++ "\n\n" ++ closing

/-- Spec-side clamp: `clamp(x, lo, hi)` as used in §4.2 step 2 of the spec. -/
def clamp (x lo hi : ℚ) : ℚ := min (max x lo) hi

/-- Spec-side composite score of §4.2 step 1:
`score = brightness/128.0 + edgeDensity/50.0` (the spec's `edgeDensity` is the
source's `edge_mean`). -/
def spec_score (stats : ImageStats) : ℚ :=
  stats.brightness / 128 + stats.edge_mean / 50

/-- Spec-side probability of §4.2 step 2, as a function of the stats and the
uniform draw `u`:
`probabilityReal = clamp(0.55 + (score - 1.0) * 0.15 + u, 0.02, 0.98)`. -/
def spec_probabilityReal (stats : ImageStats) (u : ℚ) : ℚ :=
  clamp (0.55 + (spec_score stats - 1) * 0.15 + u) 0.02 0.98

/-! ## Concrete sample inputs (used by the witness theorems) -/

/-- A decodable sample image whose pipeline yields brightness 128, contrast
40, edge mean 25 (the spec's §8 scenario). -/
def wImg : PILImage := ⟨.ok 128 40 25, "PNG"⟩

/-- A sample random source giving verdict draw 0.9 (a fake verdict on
`wImg`, whose probability is 0.625 at zero noise). -/
def wRandFake : Rand := ⟨0, 9 / 10, fun _ => 1 / 2, 2, [0, 3]⟩

/-- A sample random source giving verdict draw 0 (a real verdict). -/
def wRandReal : Rand := ⟨0, 0, fun _ => 1 / 2, 1, [2]⟩

/-! ## Helper lemmas -/

/-- Every expected-feature list stored in the catalog is duplicate-free. -/
lemma db_entry_lists_nodup : ∀ e ∈ CURRENCY_DB, ∀ p ∈ e.2.2, p.2.Nodup := by decide

/-- Any catalog lookup returns a duplicate-free feature list. -/
lemma db_features_nodup (c d : String) : (db_features c d).Nodup := by
  unfold db_features
  split
  · exact List.nodup_nil
  · next e h1 =>
      split
      · exact List.nodup_nil
      · next p h2 =>
          exact db_entry_lists_nodup e (List.mem_of_find?_eq_some h1) p
            (List.mem_of_find?_eq_some h2)

/-- A lookup of a pair outside the catalog key set returns the empty list. -/
lemma db_features_eq_nil_of_not_mem (c d : String) (h : (c, d) ∉ catalogPairs) :
    db_features c d = [] := by
  unfold db_features
  split
  · rfl
  · next e h1 =>
      split
      · rfl
      · next p h2 =>
          exfalso
          apply h
          have he := List.mem_of_find?_eq_some h1
          have hp := List.mem_of_find?_eq_some h2
          have hc : e.1 = c := by simpa using List.find?_some h1
          have hd : p.1 = d := by simpa using List.find?_some h2
          unfold catalogPairs
          rw [List.mem_flatMap]
          exact ⟨e, he, List.mem_map.mpr ⟨p, hp, by rw [hc, hd]⟩⟩

/-- The observed half of the detection loop is a sublist of the input. -/
lemma detectFeatures_fst_sublist (t : ℚ) (dr : ℕ → ℚ) :
    ∀ (l : List String) (i : ℕ), (detectFeatures t dr l i).1.Sublist l := by
  intro l
  induction l with
  | nil => intro i; simp [detectFeatures]
  | cons f fs ih =>
    intro i
    simp only [detectFeatures]
    split
    · exact (ih (i + 1)).cons₂ f
    · exact (ih (i + 1)).cons f

/-- The missing half of the detection loop is a sublist of the input. -/
lemma detectFeatures_snd_sublist (t : ℚ) (dr : ℕ → ℚ) :
    ∀ (l : List String) (i : ℕ), (detectFeatures t dr l i).2.Sublist l := by
  intro l
  induction l with
  | nil => intro i; simp [detectFeatures]
  | cons f fs ih =>
    intro i
    simp only [detectFeatures]
    split
    · exact (ih (i + 1)).cons f
    · exact (ih (i + 1)).cons₂ f

/-- The two halves of the detection loop together are a permutation of the
input: every feature lands in exactly one list. -/
lemma detectFeatures_perm (t : ℚ) (dr : ℕ → ℚ) :
    ∀ (l : List String) (i : ℕ),
      ((detectFeatures t dr l i).1 ++ (detectFeatures t dr l i).2).Perm l := by
  intro l
  induction l with
  | nil => intro i; simp [detectFeatures]
  | cons f fs ih =>
    intro i
    simp only [detectFeatures]
    split
    · simpa using (ih (i + 1)).cons f
    · exact List.perm_middle.trans ((ih (i + 1)).cons f)

/-- Full partition property of the detection loop over a duplicate-free
input list. -/
lemma detectFeatures_partition (t : ℚ) (dr : ℕ → ℚ) (l : List String) (i : ℕ)
    (h : l.Nodup) :
    (detectFeatures t dr l i).1.Sublist l ∧
    (detectFeatures t dr l i).2.Sublist l ∧
    ((detectFeatures t dr l i).1 ++ (detectFeatures t dr l i).2).Perm l ∧
    (detectFeatures t dr l i).1.Nodup ∧
    (detectFeatures t dr l i).2.Nodup ∧
    (detectFeatures t dr l i).1.Disjoint (detectFeatures t dr l i).2 := by
  have hp := detectFeatures_perm t dr l i
  have hnd : ((detectFeatures t dr l i).1 ++ (detectFeatures t dr l i).2).Nodup :=
    hp.symm.nodup h
  rw [List.nodup_append] at hnd
  exact ⟨detectFeatures_fst_sublist t dr l i, detectFeatures_snd_sublist t dr l i,
    hp, hnd.1, hnd.2.1, hnd.2.2⟩

/-- Unfolding: the probability field of the analysis result. -/
lemma probability_real_def (img : PILImage) (c d : String) (r : Rand) :
    (simulated_analysis img c d r).probability_real =
      min (max (0.55 + ((image_stats_summary img).brightness / 128 +
        (image_stats_summary img).edge_mean / 50 - 1) * 0.15 + r.uniformNoise) 0.02)
        0.98 := rfl

/-- Unfolding: the verdict field of the analysis result. -/
lemma simulated_real_def (img : PILImage) (c d : String) (r : Rand) :
    (simulated_analysis img c d r).simulated_real =
      decide (r.verdictDraw < (simulated_analysis img c d r).probability_real) := rfl

/-- Unfolding: the expected-features field of the analysis result. -/
lemma expected_features_def (img : PILImage) (c d : String) (r : Rand) :
    (simulated_analysis img c d r).expected_features = db_features c d := rfl

/-- Unfolding: the observed-features field of the analysis result. -/
lemma observed_features_def (img : PILImage) (c d : String) (r : Rand) :
    (simulated_analysis img c d r).observed_features =
      (detectFeatures (if (simulated_analysis img c d r).simulated_real then 0.8 else 0.25)
        r.featureDraw (db_features c d) 0).1 := rfl

/-- Unfolding: the missing-features field of the analysis result. -/
lemma missing_features_def (img : PILImage) (c d : String) (r : Rand) :
    (simulated_analysis img c d r).missing_features =
      (detectFeatures (if (simulated_analysis img c d r).simulated_real then 0.8 else 0.25)
        r.featureDraw (db_features c d) 0).2 := rfl

/-- Unfolding: the suspicious-reasons field of the analysis result. -/
lemma suspicious_reasons_def (img : PILImage) (c d : String) (r : Rand) :
    (simulated_analysis img c d r).suspicious_reasons =
      if (simulated_analysis img c d r).simulated_real then []
      else r.reasonPick.map (fun i => suspicious_pool.getD i "") := rfl

/-- Unfolding: the stats field of the analysis result. -/
lemma stats_def (img : PILImage) (c d : String) (r : Rand) :
    (simulated_analysis img c d r).stats = image_stats_summary img := rfl

/-- The clamp `min (max x 0.02) 0.98` keeps the probability inside
[0.02, 0.98]. -/
lemma prob_bounds (img : PILImage) (c d : String) (r : Rand) :
    0.02 ≤ (simulated_analysis img c d r).probability_real ∧
    (simulated_analysis img c d r).probability_real ≤ 0.98 := by
  rw [probability_real_def]
  exact ⟨le_min (le_max_right _ _) (by norm_num), min_le_right _ _⟩

/-- Indexing the suspicious pool is injective on positions below 5. -/
lemma pool_getD_inj :
    ∀ i < 5, ∀ j < 5,
      suspicious_pool.getD i "" = suspicious_pool.getD j "" → i = j := by decide

/-- Indexing the suspicious pool at a position below 5 lands in the pool. -/
lemma pool_getD_mem : ∀ i < 5, suspicious_pool.getD i "" ∈ suspicious_pool := by decide

/-- The banker's rounding used by `:.0f` lands on a nearest integer. -/
lemma roundHalfEven_nearest (q : ℚ) : |q - (roundHalfEven q : ℚ)| ≤ 1 / 2 := by
  have h0 : (0 : ℚ) ≤ Int.fract q := Int.fract_nonneg q
  have h1 : Int.fract q < 1 := Int.fract_lt_one q
  have hq : (⌊q⌋ : ℚ) + Int.fract q = q := Int.floor_add_fract q
  unfold roundHalfEven
  split
  · next h => rw [abs_le]; constructor <;> linarith
  · next h =>
    split
    · next h2 => rw [abs_le]; push_cast; constructor <;> linarith
    · next h2 =>
      split <;> (rw [abs_le]; push_cast; constructor <;> linarith)

/-- Appending to a string whose character list starts with `c` yields a
string whose character list still starts with `c`. -/
lemma data_head_of_append (s t : String) (c : Char) (l : List Char)
    (h : s.data = c :: l) : (s ++ t).data = c :: (l ++ t.data) := by
  rw [String.data_append, h]; rfl

/-- Two strings whose character lists start with different characters are
different. -/
lemma string_ne_of_head {a b : String} {c₁ c₂ : Char} {l₁ l₂ : List Char}
    (h₁ : a.data = c₁ :: l₁) (h₂ : b.data = c₂ :: l₂) (hne : c₁ ≠ c₂) : a ≠ b := by
  intro h
  rw [h, h₂] at h₁
  injection h₁ with hc _
  exact hne hc.symm

/-- The sample fake-verdict run really yields a fake verdict:
its probability is 0.625 and the verdict draw is 0.9. -/
lemma wRandFake_verdict :
    (simulated_analysis wImg "INR" "50" wRandFake).simulated_real = false := by
  rw [simulated_real_def, probability_real_def]
  simp only [decide_eq_false_iff_not, not_lt]
  norm_num [wImg, wRandFake, image_stats_summary, min_def, max_def]

/-- The sample real-verdict run really yields a real verdict:
its probability is 0.625 and the verdict draw is 0. -/
lemma wRandReal_verdict :
    (simulated_analysis wImg "INR" "50" wRandReal).simulated_real = true := by
  rw [simulated_real_def, probability_real_def]
  simp only [decide_eq_true_eq]
  norm_num [wImg, wRandReal, image_stats_summary, min_def, max_def]

/-! ## Claim theorems -/

/-- C1: for every image (hence every ImageStats triple reachable through
`image_stats_summary`) and every value returned by the random source, the
`probability_real` produced by `simulated_analysis` lies within
[0.02, 0.98] inclusive. -/
theorem prob_real_clamped (img : PILImage) (c d : String) (r : Rand) :
    0.02 ≤ (simulated_analysis img c d r).probability_real ∧
    (simulated_analysis img c d r).probability_real ≤ 0.98 :=
  prob_bounds img c d r

/-- C2: for every AnalysisResult returned by `simulated_analysis`,
`observed_features` and `missing_features` form an ordered partition of
`expected_features`: both are (order-preserving) sublists, their
concatenation is a permutation of the expected list (every expected feature
goes to exactly one side, no omissions), both sides are duplicate-free, and
the two sides are disjoint. -/
theorem features_partition (img : PILImage) (c d : String) (r : Rand) :
    (simulated_analysis img c d r).observed_features.Sublist
      (simulated_analysis img c d r).expected_features ∧
    (simulated_analysis img c d r).missing_features.Sublist
      (simulated_analysis img c d r).expected_features ∧
    ((simulated_analysis img c d r).observed_features ++
      (simulated_analysis img c d r).missing_features).Perm
      (simulated_analysis img c d r).expected_features ∧
    (simulated_analysis img c d r).observed_features.Nodup ∧
    (simulated_analysis img c d r).missing_features.Nodup ∧
    (simulated_analysis img c d r).observed_features.Disjoint
      (simulated_analysis img c d r).missing_features :=
  detectFeatures_partition
    (if (simulated_analysis img c d r).simulated_real then 0.8 else 0.25)
    r.featureDraw (db_features c d) 0 (db_features_nodup c d)

/-- C3: `suspicious_reasons` is empty whenever the simulated verdict is
real; when it is fake, it has exactly 1 or 2 entries (as many as
`random.randint(1,2)` returned), they are pairwise distinct, and each is
drawn from the fixed 5-item vocabulary. -/
theorem suspicious_reasons_shape (img : PILImage) (c d : String) (r : Rand)
    (hk : r.reasonCount = 1 ∨ r.reasonCount = 2)
    (hlen : r.reasonPick.length = r.reasonCount)
    (hnd : r.reasonPick.Nodup)
    (hb : ∀ i ∈ r.reasonPick, i < 5) :
    ((simulated_analysis img c d r).simulated_real = true →
      (simulated_analysis img c d r).suspicious_reasons = []) ∧
    ((simulated_analysis img c d r).simulated_real = false →
      ((simulated_analysis img c d r).suspicious_reasons.length = 1 ∨
        (simulated_analysis img c d r).suspicious_reasons.length = 2) ∧
      (simulated_analysis img c d r).suspicious_reasons.Nodup ∧
      ∀ s ∈ (simulated_analysis img c d r).suspicious_reasons,
        s ∈ suspicious_pool) := by
  constructor
  · intro h
    rw [suspicious_reasons_def, h]
    rfl
  · intro h
    rw [suspicious_reasons_def, h]
    simp only [Bool.false_eq_true, if_false]
    refine ⟨?_, ?_, ?_⟩
    · rw [List.length_map, hlen]
      exact hk
    · exact hnd.map_on fun i hi j hj hij =>
        pool_getD_inj i (hb i hi) j (hb j hj) hij
    · intro s hs
      obtain ⟨i, hi, rfl⟩ := List.mem_map.mp hs
      exact pool_getD_mem i (hb i hi)

/-- C3 witness: at a concrete fake-verdict run the reasons list has length
2, is duplicate-free, and draws from the vocabulary. -/
theorem suspicious_reasons_shape_witness :
    (simulated_analysis wImg "INR" "50" wRandFake).simulated_real = false ∧
    (((simulated_analysis wImg "INR" "50" wRandFake).suspicious_reasons.length = 1 ∨
       (simulated_analysis wImg "INR" "50" wRandFake).suspicious_reasons.length = 2) ∧
     (simulated_analysis wImg "INR" "50" wRandFake).suspicious_reasons.Nodup ∧
     ∀ s ∈ (simulated_analysis wImg "INR" "50" wRandFake).suspicious_reasons,
       s ∈ suspicious_pool) :=
  ⟨wRandFake_verdict,
   (suspicious_reasons_shape wImg "INR" "50" wRandFake (Or.inr rfl) rfl
     (by decide) (by decide)).2 wRandFake_verdict⟩

/-- C4: the probability equals the spec formula
`clamp(0.55 + (score - 1) * 0.15 + u, 0.02, 0.98)` for `u` the value the
uniform draw returned (which Python guarantees lies in [-0.12, 0.12]), with
`score = brightness/128 + edgeDensity/50`; moreover that draw is the only
random input the probability depends on. -/
theorem probability_formula (img : PILImage) (c d : String) (r : Rand)
    (h : -0.12 ≤ r.uniformNoise ∧ r.uniformNoise ≤ 0.12) :
    (∃ u : ℚ, (-0.12 ≤ u ∧ u ≤ 0.12) ∧
      (simulated_analysis img c d r).probability_real =
        spec_probabilityReal (image_stats_summary img) u) ∧
    ∀ r' : Rand, r'.uniformNoise = r.uniformNoise →
      (simulated_analysis img c d r').probability_real =
        (simulated_analysis img c d r).probability_real := by
  constructor
  · exact ⟨r.uniformNoise, h, rfl⟩
  · intro r' h'
    rw [probability_real_def, probability_real_def, h']

/-- C4 witness: the formula at the concrete sample image and a zero noise
draw. -/
theorem probability_formula_witness :
    (∃ u : ℚ, (-0.12 ≤ u ∧ u ≤ 0.12) ∧
      (simulated_analysis wImg "INR" "50" wRandFake).probability_real =
        spec_probabilityReal (image_stats_summary wImg) u) ∧
    ∀ r' : Rand, r'.uniformNoise = wRandFake.uniformNoise →
      (simulated_analysis wImg "INR" "50" r').probability_real =
        (simulated_analysis wImg "INR" "50" wRandFake).probability_real :=
  probability_formula wImg "INR" "50" wRandFake (by constructor <;> norm_num [wRandFake])

/-- C5: the verdict is exactly "second uniform draw < probability_real";
and for any run there are random-source values with the same probability
and either verdict, so the verdict is not a function of the probability
(in particular it is not `probability_real > 0.5`). -/
theorem verdict_by_second_draw (img : PILImage) (c d : String) (r : Rand) :
    (simulated_analysis img c d r).simulated_real =
      decide (r.verdictDraw < (simulated_analysis img c d r).probability_real) ∧
    ∃ r₁ r₂ : Rand,
      (0 ≤ r₁.verdictDraw ∧ r₁.verdictDraw < 1) ∧
      (0 ≤ r₂.verdictDraw ∧ r₂.verdictDraw < 1) ∧
      (simulated_analysis img c d r₁).probability_real =
        (simulated_analysis img c d r₂).probability_real ∧
      (simulated_analysis img c d r₁).simulated_real = true ∧
      (simulated_analysis img c d r₂).simulated_real = false := by
  refine ⟨rfl, { r with verdictDraw := 0 },
    { r with verdictDraw := (simulated_analysis img c d r).probability_real },
    ⟨le_refl 0, by norm_num⟩, ⟨?_, ?_⟩, rfl, ?_, ?_⟩
  · exact le_trans (by norm_num) (prob_bounds img c d r).1
  · exact lt_of_le_of_lt (prob_bounds img c d r).2 (by norm_num)
  · rw [simulated_real_def]
    apply decide_eq_true
    exact lt_of_lt_of_le (by norm_num : (0 : ℚ) < 0.02)
      (prob_bounds img c d { r with verdictDraw := 0 }).1
  · rw [simulated_real_def]
    apply decide_eq_false
    have heq : (simulated_analysis img c d
        { r with verdictDraw := (simulated_analysis img c d r).probability_real
        }).probability_real = (simulated_analysis img c d r).probability_real := rfl
    rw [heq]
    exact lt_irrefl _

/-- C6: if the image pipeline raises (corrupt data / unsupported format),
`image_stats_summary` returns the zeroed stats instead of propagating the
error, and `simulated_analysis` still completes with a well-formed result
(zeroed stats, clamped probability, and observed/missing partitioning
expected). -/
theorem decode_failure_zeroed (img : PILImage) (c d : String) (r : Rand)
    (h : img.outcome = PILOutcome.error) :
    image_stats_summary img = ⟨0, 0, 0⟩ ∧
    (simulated_analysis img c d r).stats = ⟨0, 0, 0⟩ ∧
    0.02 ≤ (simulated_analysis img c d r).probability_real ∧
    (simulated_analysis img c d r).probability_real ≤ 0.98 ∧
    ((simulated_analysis img c d r).observed_features ++
      (simulated_analysis img c d r).missing_features).Perm
      (simulated_analysis img c d r).expected_features := by
  have hz : image_stats_summary img = ⟨0, 0, 0⟩ := by
    unfold image_stats_summary
    rw [h]
  refine ⟨hz, ?_, (prob_bounds img c d r).1, (prob_bounds img c d r).2, ?_⟩
  · rw [stats_def]
    exact hz
  · rw [observed_features_def, missing_features_def, expected_features_def]
    exact detectFeatures_perm _ r.featureDraw (db_features c d) 0

/-- C6 witness: a concrete corrupt image. -/
theorem decode_failure_zeroed_witness :
    image_stats_summary ⟨PILOutcome.error, "PNG"⟩ = ⟨0, 0, 0⟩ ∧
    (simulated_analysis ⟨PILOutcome.error, "PNG"⟩ "INR" "50" wRandFake).stats = ⟨0, 0, 0⟩ ∧
    0.02 ≤ (simulated_analysis ⟨PILOutcome.error, "PNG"⟩ "INR" "50" wRandFake).probability_real ∧
    (simulated_analysis ⟨PILOutcome.error, "PNG"⟩ "INR" "50" wRandFake).probability_real ≤ 0.98 ∧
    ((simulated_analysis ⟨PILOutcome.error, "PNG"⟩ "INR" "50" wRandFake).observed_features ++
      (simulated_analysis ⟨PILOutcome.error, "PNG"⟩ "INR" "50" wRandFake).missing_features).Perm
      (simulated_analysis ⟨PILOutcome.error, "PNG"⟩ "INR" "50" wRandFake).expected_features :=
  decode_failure_zeroed ⟨PILOutcome.error, "PNG"⟩ "INR" "50" wRandFake rfl

/-- C7: a (currency, denomination) pair outside the catalog degrades to
empty expected, observed and missing feature lists (and `simulated_analysis`
is a total function, so no error can be raised). -/
theorem unknown_catalog_empty (img : PILImage) (c d : String) (r : Rand)
    (h : (c, d) ∉ catalogPairs) :
    (simulated_analysis img c d r).expected_features = [] ∧
    (simulated_analysis img c d r).observed_features = [] ∧
    (simulated_analysis img c d r).missing_features = [] := by
  have he : db_features c d = [] := db_features_eq_nil_of_not_mem c d h
  refine ⟨?_, ?_, ?_⟩
  · rw [expected_features_def]
    exact he
  · rw [observed_features_def, he]
    rfl
  · rw [missing_features_def, he]
    rfl

/-- C7 witness: the spec's §8 scenario, unknown currency "XYZ" with
denomination "5". -/
theorem unknown_catalog_empty_witness :
    (simulated_analysis wImg "XYZ" "5" wRandFake).expected_features = [] ∧
    (simulated_analysis wImg "XYZ" "5" wRandFake).observed_features = [] ∧
    (simulated_analysis wImg "XYZ" "5" wRandFake).missing_features = [] :=
  unknown_catalog_empty wImg "XYZ" "5" wRandFake (by decide)

/-- C8: every explanation is header, then a body closing with the
confidence percentage — `probability_real*100` on the real branch and
`(1 - probability_real)*100` on the fake branch, rounded to a nearest
integer (`:.0f`, ties to even) — then the fixed disclaimer sentence
verbatim. -/
theorem explanation_confidence_disclaimer (sim : AnalysisResult) (cs d : String) :
    (∃ body : String,
      generate_ai_explanation sim cs d =
        "Interpretation for " ++ cs ++ " — " ++ d ++ " (simulated):" ++ "\n\n" ++
          (body ++
            (if sim.simulated_real then
              " (Simulated confidence: " ++
                toString (roundHalfEven (sim.probability_real * 100)) ++ "%)"
            else
              " (Simulated confidence that note is fake: " ++
                toString (roundHalfEven ((1 - sim.probability_real) * 100)) ++ "%)")) ++
          "\n\n" ++ closing) ∧
    |sim.probability_real * 100 - (roundHalfEven (sim.probability_real * 100) : ℚ)| ≤ 1 / 2 ∧
    |(1 - sim.probability_real) * 100 -
      (roundHalfEven ((1 - sim.probability_real) * 100) : ℚ)| ≤ 1 / 2 := by
  refine ⟨⟨if sim.simulated_real then String.intercalate " " (realTone ++ realDetails sim)
      else String.intercalate " " (fakeTone ++ fakeDetails sim), ?_⟩,
    roundHalfEven_nearest _, roundHalfEven_nearest _⟩
  unfold generate_ai_explanation fmt0f
  cases hb : sim.simulated_real <;> simp [hb, String.append_assoc]

/-- C9: the statistics extractor is deterministic — its output is a
function of the pipeline outcome alone (pixel data; metadata such as the
container format is ignored), and the stats field of the analysis result
does not depend on the random source at all. -/
theorem stats_extractor_deterministic (img₁ img₂ : PILImage) (c d : String)
    (r r' : Rand) (h : img₁.outcome = img₂.outcome) :
    image_stats_summary img₁ = image_stats_summary img₂ ∧
    (simulated_analysis img₁ c d r).stats = (simulated_analysis img₁ c d r').stats := by
  constructor
  · unfold image_stats_summary
    rw [h]
  · rfl

/-- C9 witness: equal pixel data with different container metadata, and two
different random sources. -/
theorem stats_extractor_deterministic_witness :
    image_stats_summary ⟨PILOutcome.ok 128 40 25, "PNG"⟩ =
      image_stats_summary ⟨PILOutcome.ok 128 40 25, "JPEG"⟩ ∧
    (simulated_analysis ⟨PILOutcome.ok 128 40 25, "PNG"⟩ "INR" "50" wRandFake).stats =
      (simulated_analysis ⟨PILOutcome.ok 128 40 25, "PNG"⟩ "INR" "50" wRandReal).stats :=
  stats_extractor_deterministic ⟨PILOutcome.ok 128 40 25, "PNG"⟩
    ⟨PILOutcome.ok 128 40 25, "JPEG"⟩ "INR" "50" wRandFake wRandReal rfl

/-- C10: on a real verdict `suspicious_reasons` is empty, so the
"Additional notes:" segment that the real branch of
`generate_ai_explanation` conditionally renders never appears among the
real-branch details. -/
theorem real_branch_no_additional_notes (img : PILImage) (c d : String) (r : Rand)
    (h : (simulated_analysis img c d r).simulated_real = true) :
    (simulated_analysis img c d r).suspicious_reasons = [] ∧
    ∀ x : String,
      ("Additional notes: " ++ x) ∉ realDetails (simulated_analysis img c d r) := by
  have hs : (simulated_analysis img c d r).suspicious_reasons = [] := by
    rw [suspicious_reasons_def, h]
    rfl
  refine ⟨hs, fun x hx => ?_⟩
  unfold realDetails at hx
  rw [hs] at hx
  simp only [List.isEmpty_nil, if_true, List.append_nil] at hx
  rcases List.mem_append.mp hx with hx1 | hx2
  · revert hx1
    split
    · exact List.not_mem_nil _
    · rw [List.mem_singleton]
      intro hx1
      exact absurd hx1 (string_ne_of_head
        (data_head_of_append "Additional notes: " x 'A' "dditional notes: ".data rfl)
        (data_head_of_append _ "." 'O' _
          (data_head_of_append "Observed features: "
            (String.intercalate ", " (simulated_analysis img c d r).observed_features)
            'O' "bserved features: ".data rfl))
        (by decide))
  · revert hx2
    split
    · exact List.not_mem_nil _
    · rw [List.mem_singleton]
      intro hx2
      exact absurd hx2 (string_ne_of_head
        (data_head_of_append "Additional notes: " x 'A' "dditional notes: ".data rfl)
        (data_head_of_append _ "." 'M' _
          (data_head_of_append "Minor features not clearly visible: "
            (String.intercalate ", " (simulated_analysis img c d r).missing_features)
            'M' "inor features not clearly visible: ".data rfl))
        (by decide))

/-- C10 witness: a concrete real-verdict run. -/
theorem real_branch_no_additional_notes_witness :
    (simulated_analysis wImg "INR" "50" wRandReal).suspicious_reasons = [] ∧
    ("Additional notes: " ++ "x") ∉
      realDetails (simulated_analysis wImg "INR" "50" wRandReal) :=
  ⟨(real_branch_no_additional_notes wImg "INR" "50" wRandReal wRandReal_verdict).1,
   (real_branch_no_additional_notes wImg "INR" "50" wRandReal wRandReal_verdict).2 "x"⟩

end CurrencyApp
